import Mathlib

/-!
# Verification of the archor RSS 2.0 validation engine

Shallow embedding of the `rss` package of nickolashkraus/archor.

The repository contains two parallel generations of the same package:

* `Rss2023`: the 2023 generation (exported `IsValid` methods on every
  element type, richer sub-element typing) together with its utility file
  (`IsValidURL`, `IsValidRFC822`).  This is the generation the spec treats
  as canonical.
* `Rss2022`: the 2022 generation (`pkg/rss/rss.go`, unexported `isValid`
  methods), exercised by the repository's tests.

Go-specific behaviour is modelled explicitly:

* machine integers: `strconv.ParseUint(s, 10, 0)` is modelled by
  `goParseUint64`, returning `none` exactly when Go returns a non-nil
  error (syntax error or 64-bit overflow);
* panics: a function that can panic is modelled with result type
  `Option Bool`, where `none` is a panic and `some b` a normal return;
* nil pointers: a Go pointer field `*T` is modelled as `Option T`.
-/

/-- Go `encoding/xml.Name`: the expanded name of an XML element
(namespace and local part).  It carries no validity rule. -/
structure XmlName where
  space : String
  localPart : String
deriving Repr, DecidableEq

/-- Model of the control-byte scan of Go `net/url` (`stringContainsCTLByte`):
true when the string contains an ASCII control byte (below 0x20, or 0x7f).
A space (0x20) is not a control byte. -/
def containsCTLByte (s : String) : Bool :=
  s.toList.any fun c => c.toNat < 0x20 || c.toNat == 0x7f

/-- Scheme scan of Go `net/url` (`getScheme`).  `first` records whether we
are at index 0.  Returns `none` for the "missing protocol scheme" error
(a colon at index 0) and otherwise `some (hasScheme, rest)`: a digit,
`+`, `-` or `.` at index 0 means no scheme, a colon after one or more
scheme characters ends the scheme, and any other non-alphabetic character
means the string has no scheme at all. -/
def goGetScheme (first : Bool) (orig : List Char) : List Char → Option (Bool × List Char)
  | [] => some (false, orig)
  | c :: rest =>
    if c.isAlpha then goGetScheme false orig rest
    else if c.isDigit || c == '+' || c == '-' || c == '.' then
      if first then some (false, orig) else goGetScheme false orig rest
    else if c == ':' then
      if first then none else some (true, rest)
    else some (false, orig)

/-- Model of Go `net/url.ParseRequestURI` success: it succeeds iff the
string has no control byte, is non-empty, and is `"*"`, an absolute URI
(a valid scheme before a colon), or a rooted path (leading `/`).
Simplifications, documented: validation of the authority (host) and of
percent-escapes in the path is not modelled — every URL evaluated in this
development has a plainly valid authority and path, so those branches
cannot fire.  Cutting the query at `?` does not change whether the
remainder starts with `/`, so it is omitted. -/
def goParseRequestURIOk (s : String) : Bool :=
  if containsCTLByte s then false
  else if s.toList.isEmpty then false
  else if s == "*" then true
  else
    match goGetScheme true s.toList s.toList with
    | none => false
    | some (hasScheme, rest) =>
      match rest with
      | '/' :: _ => true
      | _ => hasScheme

/-- Three-letter month name of Go's `time` package reference layouts. -/
def goMonthName (a b c : Char) : Bool :=
  let m := String.mk [a, b, c]
  m == "Jan" || m == "Feb" || m == "Mar" || m == "Apr" || m == "May" ||
    m == "Jun" || m == "Jul" || m == "Aug" || m == "Sep" || m == "Oct" ||
    m == "Nov" || m == "Dec"

/-- Model of Go `time.Parse(time.RFC822, s)` success.  Go's `time.RFC822`
layout is `"02 Jan 06 15:04 MST"`: a two-digit day, a three-letter month
name, a two-digit year, `hh:mm`, and an alphabetic zone abbreviation of
three letters.  Simplifications, documented: Go additionally range-checks
the day against the month and accepts a few longer zone abbreviations;
both inputs evaluated in this development already fail at the very first
byte of the layout (the fixed-width two-digit day), so those refinements
cannot change any result proved here. -/
def goTimeParseRFC822Ok (s : String) : Bool :=
  match s.toList with
  | [d1, d2, ' ', m1, m2, m3, ' ', y1, y2, ' ', h1, h2, ':', n1, n2, ' ', z1, z2, z3] =>
    d1.isDigit && d2.isDigit && goMonthName m1 m2 m3 && y1.isDigit && y2.isDigit &&
      h1.isDigit && h2.isDigit && n1.isDigit && n2.isDigit &&
      z1.isUpper && z2.isUpper && z3.isUpper
  | _ => false

/-- Model of Go `strconv.ParseUint(s, 10, 0)` (`bitSize 0` is the 64-bit
`uint`): `some n` on success, `none` when Go returns a non-nil error.
Base 10 with an explicit bit size forbids signs, underscores and base
prefixes, so success requires a non-empty all-digit string whose value
fits in 64 bits (on overflow Go returns `ErrRange`, a non-nil error). -/
def goParseUint64 (s : String) : Option Nat :=
  if s.toList.isEmpty then none
  else if s.toList.all Char.isDigit then
    let n := s.toList.foldl (fun acc c => acc * 10 + (c.toNat - 48)) 0
    if n < 2 ^ 64 then some n else none
  else none

/-! ## The 2023 generation of the rss package (canonical)

Model of the 2023 source file (exported `IsValid` methods) together with
its utility file (`IsValidURL`, `IsValidRFC822`).  Scalar element types are
Go named string types (`type Title string`, ...); `type Hour int` is a Go
machine integer, modelled as `Int` (its validity check only compares
against 0 and 23, where 64-bit wrap-around cannot occur for any value
produced by XML decoding, so `Int` is faithful). -/

namespace Rss2023

/-- `const RSSVERSION = "2.0"`. -/
def RSSVERSION : String := "2.0"

/-- `func IsValidURL(s string) bool`: returns `true` when
`url.ParseRequestURI(s)` yields a non-nil error, `false` otherwise.
Note the branches: the parse-error branch returns `true`. -/
def IsValidURL (s : String) : Bool :=
  if goParseRequestURIOk s then false else true

/-- `func IsValidRFC822(s string) bool`: returns `true` when
`time.Parse(time.RFC822, s)` yields a non-nil error, `false` otherwise.
Note the branches: the parse-error branch returns `true`. -/
def IsValidRFC822 (s : String) : Bool :=
  if goTimeParseRFC822Ok s then false else true

/-- `type Version string`. -/
abbrev Version := String

/-- `func (r Version) IsValid() bool`: the version attribute must equal
`RSSVERSION`. -/
def Version.IsValid (r : Version) : Bool :=
  r == RSSVERSION

/-- `type Title string`. -/
abbrev Title := String

/-- `func (r Title) IsValid() bool`: a title must be non-empty. -/
def Title.IsValid (r : Title) : Bool :=
  r != ""

/-- `type Link string`. -/
abbrev Link := String

/-- `func (r Link) IsValid() bool`: delegates to `IsValidURL`. -/
def Link.IsValid (r : Link) : Bool :=
  IsValidURL r

/-- `type Description string`. -/
abbrev Description := String

/-- `func (r Description) IsValid() bool`: a description must be
non-empty. -/
def Description.IsValid (r : Description) : Bool :=
  r != ""

/-- `type Language string`. -/
abbrev Language := String

/-- `func (r Language) IsValid() bool`: unimplemented placeholder, always
true. -/
def Language.IsValid (_ : Language) : Bool := true

/-- `type Copyright string`. -/
abbrev Copyright := String

/-- `func (r Copyright) IsValid() bool`: always true. -/
def Copyright.IsValid (_ : Copyright) : Bool := true

/-- `type ManagingEditor string`. -/
abbrev ManagingEditor := String

/-- `func (r ManagingEditor) IsValid() bool`: always true. -/
def ManagingEditor.IsValid (_ : ManagingEditor) : Bool := true

/-- `type WebMaster string`. -/
abbrev WebMaster := String

/-- `func (r WebMaster) IsValid() bool`: always true. -/
def WebMaster.IsValid (_ : WebMaster) : Bool := true

/-- `type PubDate string`. -/
abbrev PubDate := String

/-- `func (r PubDate) IsValid() bool`: delegates to `IsValidRFC822`. -/
def PubDate.IsValid (r : PubDate) : Bool :=
  IsValidRFC822 r

/-- `type LastBuildDate string`. -/
abbrev LastBuildDate := String

/-- `func (r LastBuildDate) IsValid() bool`: delegates to
`IsValidRFC822`. -/
def LastBuildDate.IsValid (r : LastBuildDate) : Bool :=
  IsValidRFC822 r

/-- `type Domain string`. -/
abbrev Domain := String

/-- `func (r Domain) IsValid() bool`: always true. -/
def Domain.IsValid (_ : Domain) : Bool := true

/-- `type Category struct`: XMLName, optional Domain attribute. -/
structure Category where
  XMLName : XmlName := ⟨"", ""⟩
  Domain : Domain := ""
deriving Repr, DecidableEq

/-- `func (r Category) IsValid() bool`: if the Domain attribute is
non-empty, delegate to `Domain.IsValid`, else true. -/
def Category.IsValid (r : Category) : Bool :=
  if r.Domain != "" then Domain.IsValid r.Domain else true

/-- `type Generator string`. -/
abbrev Generator := String

/-- `func (r Generator) IsValid() bool`: always true. -/
def Generator.IsValid (_ : Generator) : Bool := true

/-- `type Docs string`. -/
abbrev Docs := String

/-- `func (r Docs) IsValid() bool`: always true. -/
def Docs.IsValid (_ : Docs) : Bool := true

/-- `type Cloud struct`: five required string sub-elements. -/
structure Cloud where
  XMLName : XmlName := ⟨"", ""⟩
  Domain : String := ""
  Port : String := ""
  Path : String := ""
  RegisterProcedure : String := ""
  Protocol : String := ""
deriving Repr, DecidableEq

/-- `func (r Cloud) IsValid() bool`: unimplemented placeholder, always
true. -/
def Cloud.IsValid (_ : Cloud) : Bool := true

/-- `type TTL string`. -/
abbrev TTL := String

/-- `func (r TTL) IsValid() bool`: parses with
`strconv.ParseUint(string(r), 10, 0)` and returns false on error or when
`i < 0` — a comparison on an unsigned integer that can never hold. -/
def TTL.IsValid (r : TTL) : Bool :=
  match goParseUint64 r with
  | none => false
  | some i => if i < 0 then false else true

/-- `type URL string`. -/
abbrev URL := String

/-- `func (r URL) IsValid() bool`: delegates to `IsValidURL`. -/
def URL.IsValid (r : URL) : Bool :=
  IsValidURL r

/-- `type Width string`. -/
abbrev Width := String

/-- `func (r Width) IsValid() bool`: parses with `strconv.ParseUint` and
returns false on error or when the value exceeds 144. -/
def Width.IsValid (r : Width) : Bool :=
  match goParseUint64 r with
  | none => false
  | some i => if i > 144 then false else true

/-- `type Height string`. -/
abbrev Height := String

/-- `func (r Height) IsValid() bool`: parses with `strconv.ParseUint` and
returns false on error or when the value exceeds 400. -/
def Height.IsValid (r : Height) : Bool :=
  match goParseUint64 r with
  | none => false
  | some i => if i > 400 then false else true

/-- `type Image struct`: required URL, Title, Link; optional Width,
Height, Description. -/
structure Image where
  XMLName : XmlName := ⟨"", ""⟩
  URL : URL := ""
  Title : Title := ""
  Link : Link := ""
  Width : Width := ""
  Height : Height := ""
  Description : Description := ""
deriving Repr, DecidableEq

/-- `func (r Image) IsValid() bool`, transcribed as written: if
`r.URL.IsValid() || r.Title.IsValid() || r.Link.IsValid()` then return
false (the required-field predicates are joined with OR and a holding
predicate yields false); otherwise return
`r.Width.IsValid() && r.Height.IsValid()` (so the empty string in an
absent Width or Height must itself pass `ParseUint`).  The optional
Description is never consulted. -/
def Image.IsValid (r : Image) : Bool :=
  if URL.IsValid r.URL || Title.IsValid r.Title || Link.IsValid r.Link then
    false
  else
    Width.IsValid r.Width && Height.IsValid r.Height

/-- `type Rating string`. -/
abbrev Rating := String

/-- `func (r Rating) IsValid() bool`: always true. -/
def Rating.IsValid (_ : Rating) : Bool := true

/-- `type Name string`. -/
abbrev Name := String

/-- `func (r Name) IsValid() bool`: always true. -/
def Name.IsValid (_ : Name) : Bool := true

/-- `type TextInput struct`: four required sub-elements. -/
structure TextInput where
  XMLName : XmlName := ⟨"", ""⟩
  Title : Title := ""
  Description : Description := ""
  Name : Name := ""
  Link : Link := ""
deriving Repr, DecidableEq

/-- `func (r TextInput) IsValid() bool`: all four sub-elements must be
non-empty. -/
def TextInput.IsValid (r : TextInput) : Bool :=
  r.Title != "" && r.Description != "" && r.Name != "" && r.Link != ""

/-- `type Hour int`. -/
abbrev Hour := Int

/-- `func (r Hour) IsValid() bool`: false when `r < 0 || r > 23`. -/
def Hour.IsValid (r : Hour) : Bool :=
  if r < 0 ∨ r > 23 then false else true

/-- `type SkipHours struct`: the `Hour` field is a Go slice of pointers
(`[]*Hour`); an entry is `none` when the pointer is nil. -/
structure SkipHours where
  XMLName : XmlName := ⟨"", ""⟩
  Hour : List (Option Hour) := []
deriving Repr, DecidableEq

/-- The `for _, h := range r.Hour` loop of `SkipHours.IsValid`: calling
`h.IsValid()` on a nil `*Hour` dereferences a nil pointer and panics
(modelled `none`); an invalid entry returns false at once. -/
def validateHours : List (Option Hour) → Option Bool
  | [] => some true
  | none :: _ => none
  | some h :: rest => if Hour.IsValid h then validateHours rest else some false

/-- `func (r SkipHours) IsValid() bool`: more than 24 entries is invalid
before any entry is inspected; otherwise every entry is checked in
sequence order. -/
def SkipHours.IsValid (r : SkipHours) : Option Bool :=
  if r.Hour.length > 24 then some false else validateHours r.Hour

/-- `type Day string`. -/
abbrev Day := String

/-- `func (r Day) IsValid() bool`: unimplemented placeholder, always
true. -/
def Day.IsValid (_ : Day) : Bool := true

/-- `type SkipDays struct`: the `Day` field is a Go slice of pointers
(`[]*Day`). -/
structure SkipDays where
  XMLName : XmlName := ⟨"", ""⟩
  Day : List (Option Day) := []
deriving Repr, DecidableEq

/-- The `for _, d := range r.Day` loop of `SkipDays.IsValid`; a nil
`*Day` entry panics (modelled `none`). -/
def validateDays : List (Option Day) → Option Bool
  | [] => some true
  | none :: _ => none
  | some d :: rest => if Day.IsValid d then validateDays rest else some false

/-- `func (r SkipDays) IsValid() bool`: more than 7 entries is invalid;
otherwise every entry is checked in sequence order. -/
def SkipDays.IsValid (r : SkipDays) : Option Bool :=
  if r.Day.length > 7 then some false else validateDays r.Day

/-- `type Comments string`. -/
abbrev Comments := String

/-- `func (r Comments) IsValid() bool`: always true. -/
def Comments.IsValid (_ : Comments) : Bool := true

/-- `type Author string`. -/
abbrev Author := String

/-- `func (r Author) IsValid() bool`: always true. -/
def Author.IsValid (_ : Author) : Bool := true

/-- `type Source struct`: required URL attribute. -/
structure Source where
  URL : URL := ""
deriving Repr, DecidableEq

/-- `func (r Source) IsValid() bool`: delegates to `URL.IsValid`. -/
def Source.IsValid (r : Source) : Bool :=
  URL.IsValid r.URL

/-- `type Length string`. -/
abbrev Length := String

/-- `func (r Length) IsValid() bool`: always true. -/
def Length.IsValid (_ : Length) : Bool := true

/-- `type Type string` (the name `Type` is reserved in Lean, so it is
rendered `Type'`). -/
abbrev Type' := String

/-- `func (r Type) IsValid() bool`: always true. -/
def Type'.IsValid (_ : Type') : Bool := true

/-- `type Enclosure struct`: required URL, Length, Type attributes. -/
structure Enclosure where
  URL : URL := ""
  Length : Length := ""
  Type' : Type' := ""
deriving Repr, DecidableEq

/-- `func (r Enclosure) IsValid() bool`: conjunction of the three
attribute predicates. -/
def Enclosure.IsValid (r : Enclosure) : Bool :=
  URL.IsValid r.URL && Length.IsValid r.Length && Type'.IsValid r.Type'

/-- `type GUID struct`: optional IsPermaLink attribute. -/
structure GUID where
  IsPermaLink : String := ""
deriving Repr, DecidableEq

/-- `func (r GUID) IsValid() bool`: always true. -/
def GUID.IsValid (_ : GUID) : Bool := true

/-- `type Item struct`: all sub-elements optional, except that at least
one of Title and Description must be present. -/
structure Item where
  XMLName : XmlName := ⟨"", ""⟩
  Title : Title := ""
  Link : Link := ""
  Description : Description := ""
  Source : Source := {}
  Enclosure : Enclosure := {}
  Category : Category := {}
  PubDate : PubDate := ""
  GUID : GUID := {}
  Comments : Comments := ""
  Author : Author := ""
deriving Repr, DecidableEq

/-- `func (r Item) IsValid() bool`:
`r.Title.IsValid() || r.Description.IsValid()`. -/
def Item.IsValid (r : Item) : Bool :=
  Title.IsValid r.Title || Description.IsValid r.Description

/-- `type Channel struct`: three required scalar sub-elements followed by
the optional sub-elements; `Item` is a Go slice of pointers
(`[]*Item`). -/
structure Channel where
  XMLName : XmlName := ⟨"", ""⟩
  Title : Title := ""
  Link : Link := ""
  Description : Description := ""
  Language : Language := ""
  Copyright : Copyright := ""
  ManagingEditor : ManagingEditor := ""
  WebMaster : WebMaster := ""
  PubDate : PubDate := ""
  LastBuildDate : LastBuildDate := ""
  Category : Category := {}
  Generator : Generator := ""
  Docs : Docs := ""
  Cloud : Cloud := {}
  TTL : TTL := ""
  Image : Image := {}
  Rating : Rating := ""
  TextInput : TextInput := {}
  SkipHours : SkipHours := {}
  SkipDays : SkipDays := {}
  Item : List (Option Item) := []
deriving Repr, DecidableEq

/-- `func (c Channel) IsValid() bool`:
`c.Title != "" && c.Link != "" && c.Description != ""`.  No other field
— required-field format, optional sub-element, or item — is consulted. -/
def Channel.IsValid (c : Channel) : Bool :=
  c.Title != "" && c.Link != "" && c.Description != ""

/-- `type RSS struct`: version attribute and a `*Channel` pointer
(`none` models a nil pointer). -/
structure RSS where
  XMLName : XmlName := ⟨"", ""⟩
  Version : Version := ""
  Channel : Option Channel := none
deriving Repr, DecidableEq

/-- The kinds of `reflect.Value` that arise inside `RSS.IsValid`.
`invalid` is the zero `reflect.Value`; `pointer isNil` is a pointer value
recording whether it is nil. -/
inductive ReflectKind where
  | invalid
  | stringKind
  | structKind
  | pointer (isNil : Bool)
deriving Repr, DecidableEq

/-- `reflect.Indirect`: a nil pointer yields the zero `reflect.Value`
(kind `invalid`); a non-nil pointer yields the pointed-to value (here a
struct); a non-pointer is returned unchanged. -/
def reflectIndirect : ReflectKind → ReflectKind
  | .pointer true => .invalid
  | .pointer false => .structKind
  | k => k

/-- `reflect.Value.IsNil`: defined only for chan, func, interface, map,
pointer and slice values; on any other kind — including a string, a
struct, or the zero `reflect.Value` — it panics (modelled `none`). -/
def reflectValueIsNil : ReflectKind → Option Bool
  | .pointer b => some b
  | _ => none

/-- `reflect.Value.IsValid`: false only for the zero `reflect.Value`.
This is the method the source actually calls where element validity was
intended. -/
def reflectValueIsValid : ReflectKind → Bool
  | .invalid => false
  | _ => true

/-- The per-field body of the `RSS.IsValid` loop for one field whose
value implements `RSSElement`: `v := reflect.Indirect(reflect.ValueOf(t))`
followed by `if v.IsNil() || !v.IsValid() { return false }`.  Both calls
are `reflect.Value` methods — the element's own `IsValid` is never
invoked.  Returns `none` on panic, `some true` when the field fails (the
loop returns false), `some false` when the loop continues. -/
def reflectFieldRejects (k : ReflectKind) : Option Bool :=
  match reflectValueIsNil (reflectIndirect k) with
  | none => none
  | some isNil => some (isNil || !reflectValueIsValid (reflectIndirect k))

/-- `func (r RSS) IsValid() bool`: iterates over the struct fields of
`RSS` via reflection.  `XMLName` (an `xml.Name`) does not implement
`RSSElement` and is skipped.  `Version` implements it with a string
kind; `Channel` implements it with a pointer kind (nil exactly when the
document has no channel).  The result is `none` (panic) when a field
check panics. -/
def RSS.IsValid (r : RSS) : Option Bool :=
  match reflectFieldRejects .stringKind with
  | none => none
  | some true => some false
  | some false =>
    match reflectFieldRejects (.pointer r.Channel.isNone) with
    | none => none
    | some true => some false
    | some false => some true

end Rss2023

/-! ## The 2022 generation of the rss package (pkg/rss/rss.go)

Model of `pkg/rss/rss.go` (unexported `isValid` methods).  This is the
generation exercised by the repository's test file. -/

namespace Rss2022

/-- `const RSSVERSION = "2.0"`. -/
def RSSVERSION : String := "2.0"

/-- `type Version string`. -/
abbrev Version := String

/-- `func (r Version) isValid() bool`: the version attribute must equal
`RSSVERSION`. -/
def Version.isValid (r : Version) : Bool :=
  r == RSSVERSION

/-- `type Title string`. -/
abbrev Title := String

/-- `func (r Title) isValid() bool`: a title must be non-empty. -/
def Title.isValid (r : Title) : Bool :=
  r != ""

/-- `type Link string`. -/
abbrev Link := String

/-- `func (r Link) isValid() bool`: inlines the inverted URL check —
`url.ParseRequestURI` error yields `true`, success yields `false`. -/
def Link.isValid (r : Link) : Bool :=
  if goParseRequestURIOk r then false else true

/-- `type Description string`. -/
abbrev Description := String

/-- `func (r Description) isValid() bool`: always true (the source notes
it only serves to implement the `RSSElement` interface). -/
def Description.isValid (_ : Description) : Bool := true

/-- `type Language string`. -/
abbrev Language := String

/-- `func (r Language) isValid() bool`: always true. -/
def Language.isValid (_ : Language) : Bool := true

/-- `type PubDate string`. -/
abbrev PubDate := String

/-- `func (r PubDate) isValid() bool`: always true. -/
def PubDate.isValid (_ : PubDate) : Bool := true

/-- `type LastBuildDate string`. -/
abbrev LastBuildDate := String

/-- `func (r LastBuildDate) isValid() bool`: always true. -/
def LastBuildDate.isValid (_ : LastBuildDate) : Bool := true

/-- `func IsValidRFC822(value string) bool`: returns `true` when
`time.Parse(time.RFC822, value)` yields a non-nil error, `false`
otherwise. -/
def IsValidRFC822 (value : String) : Bool :=
  if goTimeParseRFC822Ok value then false else true

/-- `type Category string` (a plain string in this generation, with no
`isValid` method). -/
abbrev Category := String

/-- `type Image struct`: six plain string fields. -/
structure Image where
  Url : String := ""
  Title : String := ""
  Link : String := ""
  Width : String := ""
  Height : String := ""
  Description : String := ""
deriving Repr, DecidableEq

/-- `func (r Image) isValid() bool`: the three required fields must be
non-empty, then Width and Height must parse with `strconv.ParseUint` and
respect the 144/400 bounds — also when they are absent (empty). -/
def Image.isValid (r : Image) : Bool :=
  if r.Url == "" || r.Title == "" || r.Link == "" then false
  else
    match goParseUint64 r.Width with
    | none => false
    | some i =>
      if i > 144 then false
      else
        match goParseUint64 r.Height with
        | none => false
        | some j => if j > 400 then false else true

/-- `type Cloud struct`: five plain string fields. -/
structure Cloud where
  Domain : String := ""
  Port : String := ""
  Path : String := ""
  RegisterProcedure : String := ""
  Protocol : String := ""
deriving Repr, DecidableEq

/-- `func (r Cloud) isValid() bool`: always true. -/
def Cloud.isValid (_ : Cloud) : Bool := true

/-- `type TTL int` — a Go machine integer, decoded from text by
`encoding/xml`; modelled as `Int`. -/
abbrev TTL := Int

/-- `func (r TTL) isValid() bool`: `r > 0` (this generation correctly
rejects zero). -/
def TTL.isValid (r : TTL) : Bool :=
  r > 0

/-- `type TextInput struct`: four plain string fields. -/
structure TextInput where
  Title : String := ""
  Description : String := ""
  Name : String := ""
  Link : String := ""
deriving Repr, DecidableEq

/-- `func (r TextInput) isValid() bool`: all four fields must be
non-empty. -/
def TextInput.isValid (r : TextInput) : Bool :=
  r.Title != "" && r.Description != "" && r.Name != "" && r.Link != ""

/-- `type Enclosure struct` (no `isValid` method in this generation). -/
structure Enclosure where
  URL : String := ""
  Length : Int := 0
  Type' : String := ""
deriving Repr, DecidableEq

/-- `type Item struct` (no `isValid` method in this generation). -/
structure Item where
  Title : String := ""
  Link : String := ""
  Description : String := ""
  Author : String := ""
  Category : String := ""
  Comments : String := ""
  Enclosure : Enclosure := {}
  Guid : String := ""
  PubDate : String := ""
  Source : String := ""
deriving Repr, DecidableEq

/-- `type Channel struct`: three required typed sub-elements, the rest
plain strings or typed optionals; `Item` is a Go slice of pointers. -/
structure Channel where
  XMLName : XmlName := ⟨"", ""⟩
  Title : Title := ""
  Link : Link := ""
  Description : Description := ""
  Language : Language := ""
  Copyright : String := ""
  ManagingEditor : String := ""
  WebMaster : String := ""
  PubDate : PubDate := ""
  LastBuildDate : LastBuildDate := ""
  Category : Category := ""
  Generator : String := ""
  Docs : String := ""
  Cloud : String := ""
  TTL : TTL := 0
  Image : Image := {}
  Rating : String := ""
  TextInput : TextInput := {}
  SkipHours : String := ""
  SkipDays : String := ""
  Item : List (Option Item) := []
deriving Repr, DecidableEq

/-- `func (c Channel) isValid() bool`:
`c.Title != "" && c.Link != "" && c.Description != ""`. -/
def Channel.isValid (c : Channel) : Bool :=
  c.Title != "" && c.Link != "" && c.Description != ""

/-- `type RSS struct`: version attribute and a `*Channel` pointer. -/
structure RSS where
  XMLName : XmlName := ⟨"", ""⟩
  Version : Version := ""
  Channel : Option Channel := none
deriving Repr, DecidableEq

/-- `func (r RSS) isValid() bool`: iterates over the struct fields of
`RSS`.  `XMLName` does not implement `RSSElement` and is skipped.  For
`Version`, `t == nil` is false (a non-pointer value) and
`Version.isValid` is consulted; an invalid version returns false before
the `Channel` field is reached.  For `Channel`, the interface holds a
typed `*Channel`, so `t == nil` is false even when the pointer is nil
(a typed nil in a Go interface is not equal to nil), and the
value-receiver call `t.isValid()` dereferences the pointer: a nil
channel is a nil-pointer dereference, a panic (modelled `none`) — the
source carries the comment `TODO: Handle nil pointers`. -/
def RSS.isValid (r : RSS) : Option Bool :=
  if Version.isValid r.Version then
    match r.Channel with
    | none => none
    | some c => if Channel.isValid c then some true else some false
  else some false

end Rss2022

/-! ## Results on the claims

The examined validation engine is the 2023 generation (`Rss2023`); where a
claim also concerns the 2022 generation, both are evaluated. -/

/-- C1: the claimed iff between engine verdict and required-element
presence plus per-element format rules fails: the engine `RSS.IsValid`
never produces a verdict at all.  Its reflection loop reaches the
`Version` field (a string kind), where `reflect.Value.IsNil` panics, on
every input — in particular it cannot return true on a fully valid
document, contradicting the repository's own `TestRSSIsValid`. -/
theorem c1_engine_never_returns_a_verdict :
    ∀ r : Rss2023.RSS, Rss2023.RSS.IsValid r = Option.none :=
  fun _ => rfl

/-- C2: validity evaluation is not total.  The document-level predicate
of the 2023 generation panics on the zero value (first conjunct), and
the 2022 generation's `RSS.isValid` dereferences a nil `*Channel` —
boxed as a typed non-nil interface the `t == nil` guard misses — and
panics on a version-2.0 document with no channel (second conjunct). -/
theorem c2_validity_panics_on_zero_value_and_nil_channel :
    Rss2023.RSS.IsValid ⟨⟨"", ""⟩, "", none⟩ = Option.none ∧
    Rss2022.RSS.isValid ⟨⟨"", ""⟩, "2.0", none⟩ = Option.none :=
  ⟨rfl, rfl⟩

/-- C3: a document whose version attribute is "1.0" does not make the
2023 engine return false — the engine panics before any version
comparison (first conjunct).  The 2022 generation does return false,
because its field loop rejects at the `Version` field before reaching
the nil-channel dereference (second conjunct). -/
theorem c3_version_mismatch_panics_instead_of_false :
    Rss2023.RSS.IsValid ⟨⟨"", ""⟩, "1.0", none⟩ = Option.none ∧
    Rss2022.RSS.isValid ⟨⟨"", ""⟩, "1.0", none⟩ = some false :=
  ⟨rfl, rfl⟩

/-- C4: an Image whose required URL, Title and Link are genuinely valid
and whose optional Width and Height are absent is rejected (first
conjunct): the non-empty Title alone makes the OR-joined required-field
guard return false.  Absence of an optional sub-element is also not
neutral: with the required-field guard passed (empty Title), the absent
(empty) Width fails `ParseUint` and invalidates the image (second
conjunct), while the same image with present, parsable Width and Height
is accepted (third conjunct). -/
theorem c4_image_optional_handling_refuted :
    Rss2023.Image.IsValid ⟨⟨"", ""⟩, "http://x.com", "T", "http://x.com", "", "", ""⟩ = false ∧
    Rss2023.Image.IsValid ⟨⟨"", ""⟩, "http://x.com", "", "http://x.com", "", "", ""⟩ = false ∧
    Rss2023.Image.IsValid ⟨⟨"", ""⟩, "http://x.com", "", "http://x.com", "88", "31", ""⟩ = true :=
  ⟨by decide, by decide, by decide⟩

/-- C5: item validity is exactly "Title non-empty or Description
non-empty", and depends on no other field: for arbitrary values of every
field, the verdict equals `Title != "" || Description != ""`, an
expression in Title and Description alone. -/
theorem c5_item_valid_iff_title_or_description :
    ∀ (x : XmlName) (t : Rss2023.Title) (l : Rss2023.Link) (d : Rss2023.Description)
      (src : Rss2023.Source) (enc : Rss2023.Enclosure) (cat : Rss2023.Category)
      (pd : Rss2023.PubDate) (g : Rss2023.GUID) (com : Rss2023.Comments) (au : Rss2023.Author),
      Rss2023.Item.IsValid ⟨x, t, l, d, src, enc, cat, pd, g, com, au⟩ = (t != "" || d != "") :=
  fun _ _ _ _ _ _ _ _ _ _ _ => rfl

/-- C6: the URL well-formedness check is inverted.  `IsValidURL` returns
true exactly when `url.ParseRequestURI` fails, so the syntactically valid
"http://example.com" is rejected and "not a url" is accepted — the
opposite of the claim and of the function's own doc comment. -/
theorem c6_url_check_inverted :
    Rss2023.IsValidURL "http://example.com" = false ∧
    Rss2023.IsValidURL "not a url" = true :=
  ⟨by decide, by decide⟩

/-- C7: the RFC 822 check accepts "not a date".  `IsValidRFC822` returns
true exactly when `time.Parse(time.RFC822, s)` fails; Go's `time.RFC822`
layout ("02 Jan 06 15:04 MST") matches neither input, so both the
RFC 822-conformant date (agreeing with the claim only by accident) and
"not a date" (contradicting it) yield true. -/
theorem c7_rfc822_check_accepts_anything_unparsable :
    Rss2023.IsValidRFC822 "Sun, 06 Sep 2009 16:20:00 +0000" = true ∧
    Rss2023.IsValidRFC822 "not a date" = true :=
  ⟨by decide, by decide⟩

/-- C8: TTL validity accepts "0".  The guard `i < 0` on the result of
`strconv.ParseUint` is vacuous for an unsigned integer, so every
parsable value — zero included — passes, contradicting the claim and the
method's own "TTL must be a positive integer" comment; the remaining
three sample inputs behave as claimed. -/
theorem c8_ttl_accepts_zero :
    Rss2023.TTL.IsValid "0" = true ∧
    Rss2023.TTL.IsValid "1800" = true ∧
    Rss2023.TTL.IsValid "-1" = false ∧
    Rss2023.TTL.IsValid "abc" = false :=
  ⟨by decide, by decide, by decide, by decide⟩

/-- C9: with valid required URL, Title and Link, an in-bounds
Width="144" (Height "31", the documented default) does not make the
image valid: the OR-joined required-field guard already returns false on
the non-empty Title, so the claimed width/height behaviour is
unreachable. -/
theorem c9_in_bounds_width_still_rejected :
    Rss2023.Image.IsValid ⟨⟨"", ""⟩, "http://x.com", "T", "http://x.com", "144", "31", ""⟩ = false :=
  by decide

/-- The skipHours entry loop on a list of non-nil entries computes the
conjunction of the per-entry checks, first failure deciding. -/
theorem validateHours_on_present_entries (hs : List Rss2023.Hour) :
    Rss2023.validateHours (hs.map some) = some (hs.all Rss2023.Hour.IsValid) := by
  induction hs with
  | nil => rfl
  | cons h t ih =>
    by_cases hh : Rss2023.Hour.IsValid h <;>
      simp [Rss2023.validateHours, hh, ih]

/-- An hour value inside [0, 23] passes `Hour.IsValid`. -/
theorem hour_in_range_valid (v : Rss2023.Hour) (h1 : 0 ≤ v) (h2 : v ≤ 23) :
    Rss2023.Hour.IsValid v = true := by
  simp only [Rss2023.Hour.IsValid]
  split
  next hc =>
    rcases hc with hc | hc
    · exact absurd h1 (not_le.mpr hc)
    · exact absurd h2 (not_le.mpr hc)
  next => rfl

/-- An hour value outside [0, 23] fails `Hour.IsValid`. -/
theorem hour_out_of_range_invalid (v : Rss2023.Hour) (h : v < 0 ∨ 23 < v) :
    Rss2023.Hour.IsValid v = false := by
  simp only [Rss2023.Hour.IsValid]
  split
  next => rfl
  next hc => exact absurd h hc

/-- C10: skipHours validity checks the length bound before any entry
(25 entries are rejected whatever the entries are, nil pointers
included), accepts 24 present entries all in [0,23], and rejects any
list of present entries containing a value outside [0,23]. -/
theorem c10_skiphours_length_bound_then_entries :
    (∀ (x : XmlName) (hs : List (Option Rss2023.Hour)), hs.length = 25 →
        Rss2023.SkipHours.IsValid ⟨x, hs⟩ = some false) ∧
    (∀ (x : XmlName) (hs : List Rss2023.Hour), hs.length = 24 →
        (∀ v ∈ hs, 0 ≤ v ∧ v ≤ 23) →
        Rss2023.SkipHours.IsValid ⟨x, hs.map some⟩ = some true) ∧
    (∀ (x : XmlName) (hs : List Rss2023.Hour) (v : Rss2023.Hour),
        hs.length ≤ 24 → v ∈ hs → (v < 0 ∨ 23 < v) →
        Rss2023.SkipHours.IsValid ⟨x, hs.map some⟩ = some false) := by
  refine ⟨fun x hs hlen => ?_, fun x hs hlen hin => ?_, fun x hs v hlen hv hout => ?_⟩
  · simp [Rss2023.SkipHours.IsValid, hlen]
  · have hall : hs.all Rss2023.Hour.IsValid = true :=
      List.all_eq_true.mpr fun v hv => hour_in_range_valid v (hin v hv).1 (hin v hv).2
    simp [Rss2023.SkipHours.IsValid, validateHours_on_present_entries, hall]
    omega
  · have hall : hs.all Rss2023.Hour.IsValid = false :=
      List.all_eq_false.mpr ⟨v, hv, by rw [hour_out_of_range_invalid v hout]; simp⟩
    simp [Rss2023.SkipHours.IsValid, validateHours_on_present_entries, hall]

/-- Witness for C10 at concrete inputs: 25 nil entries, 24 zero entries,
and the present entries 0, 24, 3. -/
theorem c10_witness :
    Rss2023.SkipHours.IsValid ⟨⟨"", ""⟩, List.replicate 25 none⟩ = some false ∧
    Rss2023.SkipHours.IsValid ⟨⟨"", ""⟩, (List.replicate 24 (0 : Rss2023.Hour)).map some⟩ = some true ∧
    Rss2023.SkipHours.IsValid ⟨⟨"", ""⟩, ([0, 24, 3] : List Rss2023.Hour).map some⟩ = some false :=
  ⟨c10_skiphours_length_bound_then_entries.1 _ _ (by decide),
   c10_skiphours_length_bound_then_entries.2.1 _ _ (by decide) (by decide),
   c10_skiphours_length_bound_then_entries.2.2 _ _ 24 (by decide) (by decide) (by decide)⟩
